import Mathlib

/-!
Verification of the SimCity policy simulation engine.

The definitions below are a shallow embedding of the Python sources:
  * `backend/core/city_model.py`   (metrics aggregation)
  * `backend/agents/policy_testing.py` (policy-effect application)
  * `backend/agents/impact_analysis.py` (delta / severity analysis)

Python floats are modelled as exact rationals (ℚ); Python `int()` truncation
and `round(x, n)` (round-half-to-even) are modelled explicitly.  The graph
state dict is modelled as an association list preserving Python dict
insertion order.  The numpy generator `np.random.default_rng(42).choice`
(an external library call) is modelled by an explicit sampling-function
parameter, constrained in theorems by the documented contract of
`Generator.choice` with `replace=False`: the sample is a duplicate-free
sub-selection of the given population of the requested size, and is a pure
function of its inputs (the seed is fixed to 42 in the source).
-/

/-- Python `int(x)` applied to a float: truncation toward zero. -/
def pythonInt (q : ℚ) : ℤ :=
  if q < 0 then ⌈q⌉ else ⌊q⌋

/-- Python `round(x)`: round half to even (banker's rounding). -/
def pythonRound (q : ℚ) : ℤ :=
  let f := ⌊q⌋
  let r := q - (f : ℚ)
  if r < 1/2 then f
  else if 1/2 < r then f + 1
  else if f % 2 = 0 then f else f + 1

/-- Python `round(x, n)` for `n ≥ 0` decimal digits. -/
def roundTo (q : ℚ) (n : ℕ) : ℚ :=
  (pythonRound (q * (10 : ℚ) ^ n) : ℚ) / (10 : ℚ) ^ n

/-- `np.mean` over a list of rationals (0 on the empty list). -/
def qmean (l : List ℚ) : ℚ :=
  l.sum / (l.length : ℚ)

/-- One road segment, as stored in the graph state dict produced by
`graph_to_state_dict` in `city_model.py`.  The `closed` key is absent
until a road-closure policy sets it; it is modelled as a `Bool` that is
`false` in every pre-policy state. -/
structure Edge where
  u : Nat
  v : Nat
  key : Nat
  length : ℚ
  highway : String
  name : String
  capacity : ℚ
  speed_kph : ℚ
  baseline_flow : ℤ
  congestion : ℚ
  travel_time : ℚ
  closed : Bool
  deriving DecidableEq

/-- A junction: planar coordinates only. -/
structure Node where
  x : ℚ
  y : ℚ
  deriving DecidableEq

/-- The graph state dict (`nodes`, `edges`, `node_count`, `edge_count`)
threaded through the agents.  `policy_applied` and `primary_affected_edges`
are the keys added by `_apply_policy_to_graph`; they are absent (`none`)
before policy application. -/
structure GraphData where
  nodes : List (Nat × Node)
  edges : List (String × Edge)
  node_count : Nat
  edge_count : Nat
  policy_applied : Option String
  primary_affected_edges : Option (List String)
  deriving DecidableEq

/-- The policy-parameter dict consumed by `_apply_policy_to_graph`.
Each field that the Python code reads with `dict.get(key, default)` is an
`Option`; the defaults are applied at the read sites, as in the source. -/
structure PolicyParams where
  policy_type : Option String
  affected_road_keywords : List String
  scope : Option String
  estimated_affected_edges_pct : Option ℚ
  deriving DecidableEq

/-- The metrics summary returned by `compute_baseline_metrics`. -/
structure Metrics where
  avg_congestion : ℚ
  severe_congestion_pct : ℚ
  avg_travel_time_min : ℚ
  total_vehicle_flow : ℤ
  daily_co2_kg : ℚ
  economic_loss_inr_per_day : ℚ
  total_edges : Nat
  total_nodes : Nat
  deriving DecidableEq

attribute [ext] Metrics

/-- One citizen profile record from the sentiment modeler. -/
structure CitizenProfile where
  group : String
  impact_score : ℚ
  affected_population : ℤ
  deriving DecidableEq

/-!  ## Policy-effect applier (`_apply_policy_to_graph`) -/

/-- The `POLICY_EFFECTS` table, `policy_testing.py` lines 20-41. -/
def congestion_multiplier_surrounding : ℚ := 1.35

def congestion_reduction_corridor_new_route : ℚ := 0.75

def modal_shift_factor_new_route : ℚ := 0.15

def congestion_reduction_network : ℚ := 0.90

def speed_improvement : ℚ := 1.10

def congestion_reduction_corridor_transit_add : ℚ := 0.70

def modal_shift_factor_transit_add : ℚ := 0.20

/-- `target_count = max(1, int(total_edges * affected_pct))` where
`affected_pct = policy_params.get("estimated_affected_edges_pct", 5) / 100`. -/
def target_count_of (graph_data : GraphData) (policy_params : PolicyParams) : Nat :=
  (max 1 (pythonInt ((graph_data.edges.length : ℚ) *
    (policy_params.estimated_affected_edges_pct.getD 5 / 100)))).toNat

/-- `keywords = [k.lower() for k in policy_params.get("affected_road_keywords", [])]`. -/
def keywords_of (policy_params : PolicyParams) : List String :=
  policy_params.affected_road_keywords.map String.toLower

/-- Python's `needle in hay` on strings: contiguous-substring test,
over the underlying character lists. -/
def py_in (needle : List Char) : List Char → Bool
  | [] => needle.isEmpty
  | b :: tl => needle.isPrefixOf (b :: tl) || py_in needle tl

/-- The per-edge keyword test from the matching loop:
`keywords and any(kw in name or kw in hw for kw in keywords)` with
`name = str(edata.get("name", "")).lower()` and
`hw = str(edata.get("highway", "")).lower()`. -/
def edge_matches (keywords : List String) (e : Edge) : Bool :=
  (!keywords.isEmpty) && keywords.any (fun kw =>
    py_in kw.data e.name.toLower.data || py_in kw.data e.highway.toLower.data)

/-- `matching_edges` after the first (keyword-matching) loop: edge ids in
graph (dict-insertion) order. -/
def matching_of (graph_data : GraphData) (policy_params : PolicyParams) : List String :=
  (graph_data.edges.filter (fun p => edge_matches (keywords_of policy_params) p.2)).map Prod.fst

/-- Stable insertion into a list sorted by descending second component:
the new element goes in front of the first entry whose key is not larger,
so earlier-listed entries win ties. -/
def insert_desc (a : String × ℚ) : List (String × ℚ) → List (String × ℚ)
  | [] => [a]
  | b :: bs => if a.2 < b.2 then b :: insert_desc a bs else a :: b :: bs

/-- Stable sort by descending second component, modelling Python's stable
`sorted(..., key=lambda x: x[1], reverse=True)`. -/
def sort_desc : List (String × ℚ) → List (String × ℚ)
  | [] => []
  | a :: as => insert_desc a (sort_desc as)

/-- `matching_edges` after the congestion-ranked supplement step: if fewer
than `target_count` keyword matches, the remaining edges are sorted by
descending congestion ratio (Python `sorted` is stable) and the top-up is
appended. -/
def supplemented_of (graph_data : GraphData) (policy_params : PolicyParams) : List String :=
  let m := matching_of graph_data policy_params
  let t := target_count_of graph_data policy_params
  if m.length < t then
    m ++ ((((sort_desc ((graph_data.edges.filter (fun p => decide (p.1 ∉ m))).map
        (fun p => (p.1, p.2.congestion)))).take (t - m.length)).map Prod.fst))
  else m

/-- `primary_edges = set(matching_edges[:target_count])`; the Python set is
modelled by the (duplicate-free source) list, membership-equivalent. -/
def primary_of (graph_data : GraphData) (policy_params : PolicyParams) : List String :=
  (supplemented_of graph_data policy_params).take (target_count_of graph_data policy_params)

/-- `other_edges = [eid for eid in edges if eid not in primary_edges]`. -/
def other_edges_of (graph_data : GraphData) (policy_params : PolicyParams) : List String :=
  (graph_data.edges.filter
    (fun p => decide (p.1 ∉ primary_of graph_data policy_params))).map Prod.fst

/-- `spill_count = min(len(other_edges), target_count * 3)`. -/
def spill_count_of (graph_data : GraphData) (policy_params : PolicyParams) : Nat :=
  min (other_edges_of graph_data policy_params).length
    (target_count_of graph_data policy_params * 3)

/-- `_apply_policy_to_graph(graph_data, policy_params)`, `policy_testing.py`
lines 97-170.  `sample population size` stands for
`np.random.default_rng(42).choice(population, size=size, replace=False)`. -/
def apply_policy_to_graph (sample : List String → Nat → List String)
    (graph_data : GraphData) (policy_params : PolicyParams) : GraphData :=
  let policy_type := policy_params.policy_type.getD ("road_closure")
  let scope := policy_params.scope.getD ("local")
  let primary := primary_of graph_data policy_params
  let edges := graph_data.edges
  let new_edges :=
    if policy_type = ("road_closure") then
      let closed_edges := edges.map (fun p =>
        if p.1 ∈ primary then
          (p.1, { p.2 with congestion := 0, baseline_flow := 0, closed := true })
        else p)
      let spill := sample (other_edges_of graph_data policy_params)
        (spill_count_of graph_data policy_params)
      closed_edges.map (fun p =>
        if p.1 ∈ spill then
          (p.1, { p.2 with
                  congestion := min 1 (p.2.congestion * congestion_multiplier_surrounding) })
        else p)
    else if policy_type = ("new_route") ∨ policy_type = ("transit_add") then
      let factor := if policy_type = ("new_route") then
        congestion_reduction_corridor_new_route else congestion_reduction_corridor_transit_add
      let modal_shift := if policy_type = ("new_route") then
        modal_shift_factor_new_route else modal_shift_factor_transit_add
      let corridor_edges := edges.map (fun p =>
        if p.1 ∈ primary then
          (p.1, { p.2 with
                  congestion := max 0.1 (p.2.congestion * factor),
                  baseline_flow := pythonInt ((p.2.baseline_flow : ℚ) * (1 - modal_shift)) })
        else p)
      if scope = ("network-wide") then
        corridor_edges.map (fun p =>
          if p.1 ∉ primary then
            (p.1, { p.2 with congestion := max 0.1 (p.2.congestion * 0.95) })
          else p)
      else corridor_edges
    else if policy_type = ("signal_timing") then
      edges.map (fun p =>
        (p.1, { p.2 with
          congestion := max 0.1 (p.2.congestion * congestion_reduction_network),
          travel_time := p.2.travel_time / speed_improvement }))
    else edges
  { graph_data with
    edges := new_edges,
    policy_applied := some policy_type,
    primary_affected_edges := some primary }

/-!  ## Metrics aggregator (`compute_baseline_metrics`, `city_model.py` 241-278) -/

def compute_baseline_metrics (graph_data : GraphData) : Option Metrics :=
  let edges := graph_data.edges
  let total_edges := edges.length
  if total_edges = 0 then none
  else
    let congestion_list := edges.map (fun p => p.2.congestion)
    let travel_times := edges.map (fun p => p.2.travel_time)
    let flows := edges.map (fun p => p.2.baseline_flow)
    let avg_congestion := qmean congestion_list
    let severe_count := (congestion_list.filter (fun r => decide ((0.8 : ℚ) < r))).length
    let total_flow := flows.sum
    let avg_length_km := qmean (edges.map (fun p => p.2.length)) / 1000
    let emission_factor : ℚ := 0.21
    let daily_co2 := (total_flow : ℚ) * avg_length_km * emission_factor * 8
    let delay_f := max 0 (avg_congestion - 0.4)
    let avg_tt_min := qmean travel_times / 60
    let delay_time_min := avg_tt_min * delay_f
    let economic_loss_inr := (total_flow : ℚ) * (delay_time_min / 60) * 50 * 8
    some {
      avg_congestion := roundTo avg_congestion 3,
      severe_congestion_pct := roundTo ((severe_count : ℚ) / (total_edges : ℚ) * 100) 1,
      avg_travel_time_min := roundTo avg_tt_min 2,
      total_vehicle_flow := total_flow,
      daily_co2_kg := roundTo daily_co2 1,
      economic_loss_inr_per_day := roundTo economic_loss_inr 0,
      total_edges := total_edges,
      total_nodes := graph_data.node_count }

/-!  ## Delta / severity analyzer (`impact_analysis.py`) -/

/-- `_severity(delta_pct, direction)`, lines 13-36. -/
def severity (delta_pct : ℚ) (direction : String) : String :=
  if direction = ("lower_is_better") then
    if delta_pct < -15 then ("highly_positive")
    else if delta_pct < -5 then ("positive")
    else if delta_pct < 5 then ("neutral")
    else if delta_pct < 15 then ("negative")
    else ("highly_negative")
  else
    if 15 < delta_pct then ("highly_positive")
    else if 5 < delta_pct then ("positive")
    else if -5 < delta_pct then ("neutral")
    else if -15 < delta_pct then ("negative")
    else ("highly_negative")

/-- `pct_change(before, after)`, lines 49-52. -/
def pct_change (before after : ℚ) : ℚ :=
  if before = 0 then 0
  else roundTo ((after - before) / before * 100) 1

/-- `overall_satisfaction` as computed in `impact_analysis_agent`
(lines 86-105): 0 for an empty profile list, the population-weighted mean
of impact scores when the total affected population is positive, 0
otherwise. -/
def overall_satisfaction (profiles : List CitizenProfile) : ℚ :=
  if profiles.isEmpty then 0
  else
    let total_pop := (profiles.map (fun p => p.affected_population)).sum
    if 0 < total_pop then
      (profiles.map (fun p => p.impact_score * (p.affected_population : ℚ))).sum
        / (total_pop : ℚ)
    else 0

/-- The `citizen_satisfaction` entry of `impact_scores` (lines 151-158):
the reported score (rounded to 2 decimals) and its severity bucket. -/
def citizen_entry (profiles : List CitizenProfile) : ℚ × String :=
  (roundTo (overall_satisfaction profiles) 2,
   severity (-(overall_satisfaction profiles) * 10) ("lower_is_better"))

/-!  ## Spec-side description of the primary-edge selection (claim C1)

`spec_primary` transcribes the claim's words: collect, in graph order,
every edge whose display name or road-class string case-insensitively
contains some keyword of the intent; if fewer than `target_count` matched,
append the remaining edges in descending order of congestion ratio until
`target_count` is reached; the primary set is the first `target_count`
elements of that list. -/

def spec_match_list (edges : List (String × Edge)) (kws : List String) : List String :=
  (edges.filter (fun p => kws.any (fun kw =>
    py_in kw.toLower.data p.2.name.toLower.data
      || py_in kw.toLower.data p.2.highway.toLower.data))).map Prod.fst

def spec_primary (edges : List (String × Edge)) (kws : List String) (t : Nat) : List String :=
  let m := spec_match_list edges kws
  let supplement :=
    if m.length < t then
      (((sort_desc ((edges.filter (fun p => decide (p.1 ∉ m))).map
          (fun p => (p.1, p.2.congestion)))).take (t - m.length)).map Prod.fst)
    else []
  (m ++ supplement).take t

/-!  ## Concrete inputs used by witnesses and counterexamples -/

/-- Edge constructor fixing the structural fields not varied in tests. -/
def mkEdge (nm hw : String) (len : ℚ) (flow : ℤ) (cong tt : ℚ) : Edge :=
  { u := 0, v := 1, key := 0, length := len, highway := hw, name := nm,
    capacity := 1000, speed_kph := 50, baseline_flow := flow,
    congestion := cong, travel_time := tt, closed := false }

/-- A concrete sampler satisfying the `choice(replace=False)` contract. -/
def take_sample (xs : List String) (n : Nat) : List String := xs.take n

/-- One-edge graph: congestion 1/2, flow 100, length 1000 m, travel time 60 s. -/
def gA : GraphData :=
  { nodes := [(0, { x := 0, y := 0 })],
    edges := [(("a"), mkEdge ("") ("primary") 1000 100 (1/2) 60)],
    node_count := 1, edge_count := 1, policy_applied := none,
    primary_affected_edges := none }

/-- Ten-edge graph with uniform attributes. -/
def g10 : GraphData :=
  { nodes := [],
    edges := (List.range 10).map (fun i =>
      (String.append ("e") (toString i), mkEdge ("") ("residential") 100 50 (1/2) 12)),
    node_count := 0, edge_count := 10, policy_applied := none,
    primary_affected_edges := none }

/-- Road-closure intent affecting an estimated 15% of edges, no keywords. -/
def p15 : PolicyParams :=
  { policy_type := some ("road_closure"), affected_road_keywords := [],
    scope := none, estimated_affected_edges_pct := some 15 }

/-- Signal-timing intent. -/
def pSignal : PolicyParams :=
  { policy_type := some ("signal_timing"), affected_road_keywords := [],
    scope := none, estimated_affected_edges_pct := some 5 }

/-- A single citizen profile used by the C9 witness. -/
def profile_students : CitizenProfile :=
  { group := ("students"), impact_score := 4, affected_population := 50 }

/-- Three-edge graph with distinct congestion ratios 0.5, 0.7, 0.6. -/
def gB : GraphData :=
  { nodes := [],
    edges := [(("a"), mkEdge ("") ("primary") 500 200 (1/2) 30),
              (("b"), mkEdge ("") ("secondary") 400 300 (7/10) 45),
              (("c"), mkEdge ("") ("tertiary") 300 100 (3/5) 20)],
    node_count := 0, edge_count := 3, policy_applied := none,
    primary_affected_edges := none }

/-- Road-closure intent affecting an estimated 10% of edges, no keywords. -/
def pB : PolicyParams :=
  { policy_type := some ("road_closure"), affected_road_keywords := [],
    scope := none, estimated_affected_edges_pct := some 10 }

/-- One-edge graph whose congestion ratio 1/20 lies below the 0.1 floor. -/
def gC5 : GraphData :=
  { nodes := [],
    edges := [(("a"), mkEdge ("") ("residential") 100 40 (1/20) 10)],
    node_count := 0, edge_count := 1, policy_applied := none,
    primary_affected_edges := none }

/-- New-route intent with defaults. -/
def pNewRoute : PolicyParams :=
  { policy_type := some ("new_route"), affected_road_keywords := [],
    scope := none, estimated_affected_edges_pct := some 5 }

/-- Transit-add intent (used by the C5 witness). -/
def pTransit : PolicyParams :=
  { policy_type := some ("transit_add"), affected_road_keywords := [],
    scope := none, estimated_affected_edges_pct := some 5 }

/-- An intent whose `policy_type` is not one of the four recognized values. -/
def pBanana : PolicyParams :=
  { policy_type := some ("banana"), affected_road_keywords := [],
    scope := none, estimated_affected_edges_pct := none }

/-- The full-default fallback intent the claim C6 describes. -/
def pDefaultRC : PolicyParams :=
  { policy_type := some ("road_closure"), affected_road_keywords := [],
    scope := some ("local"), estimated_affected_edges_pct := some 5 }

/-- An intent with a missing (`None`) `policy_type`. -/
def pNoType : PolicyParams :=
  { policy_type := none, affected_road_keywords := [("mg road")],
    scope := some ("corridor"), estimated_affected_edges_pct := some 12 }

/-- Structural agreement of two keyed edges: same id and same values of
every field the policy applier never touches (everything except the
traffic attributes `congestion`, `baseline_flow`, `travel_time` and the
`closed` flag). -/
def edge_shape_eq (a b : String × Edge) : Prop :=
  b.1 = a.1 ∧ b.2.u = a.2.u ∧ b.2.v = a.2.v ∧ b.2.key = a.2.key
    ∧ b.2.length = a.2.length ∧ b.2.highway = a.2.highway ∧ b.2.name = a.2.name
    ∧ b.2.capacity = a.2.capacity ∧ b.2.speed_kph = a.2.speed_kph

/-!  ## C8: `pct_change` zero-baseline convention -/

/-- C8: `pct_change(before, after)` is 0 when `before = 0` (no division
fault) and otherwise `round((after - before)/before*100, 1)`; in
particular `pct_change(0, 50) = 0`. -/
theorem C8_pct_change_zero_guard :
    (∀ a : ℚ, pct_change 0 a = 0)
    ∧ (∀ b a : ℚ, b ≠ 0 → pct_change b a = roundTo ((a - b) / b * 100) 1)
    ∧ pct_change 0 50 = 0 := by
  refine ⟨fun a => by simp [pct_change], fun b a hb => ?_, by simp [pct_change]⟩
  simp [pct_change, hb]

/-- Witness for C8 at `before = 2`, `after = 3`. -/
theorem C8_pct_change_zero_guard_witness :
    (2 : ℚ) ≠ 0 ∧ pct_change 2 3 = roundTo ((3 - 2) / 2 * 100) 1 :=
  ⟨by norm_num, C8_pct_change_zero_guard.2.1 2 3 (by norm_num)⟩

/-!  ## C4: severity buckets for lower-is-better metrics -/

/-- C4 (amended): the lower-is-better severity classification uses strict
`<` thresholds at -15, -5, 5, 15; `-15.0` classifies as `positive`, and
`-15.1` classifies as `highly_positive` (not `highly_negative` as the
claim stated). -/
theorem C4_severity_thresholds (d : ℚ) :
    (severity d ("lower_is_better") = ("highly_positive") ↔ d < -15)
    ∧ (severity d ("lower_is_better") = ("positive") ↔ -15 ≤ d ∧ d < -5)
    ∧ (severity d ("lower_is_better") = ("neutral") ↔ -5 ≤ d ∧ d < 5)
    ∧ (severity d ("lower_is_better") = ("negative") ↔ 5 ≤ d ∧ d < 15)
    ∧ (severity d ("lower_is_better") = ("highly_negative") ↔ 15 ≤ d)
    ∧ severity (-15) ("lower_is_better") = ("positive")
    ∧ severity (-151/10) ("lower_is_better") = ("highly_positive") := by
  refine ⟨?_, ?_, ?_, ?_, ?_, by norm_num [severity], by norm_num [severity]⟩ <;>
  · unfold severity
    split_ifs with h1 h2 h3 h4 h5 <;> simp_all <;>
      first
      | linarith
      | (intro h6; linarith)

/-- Witness for C4: the theorem applied at `d = -20`. -/
theorem C4_severity_thresholds_witness :
    severity (-20) ("lower_is_better") = ("highly_positive") :=
  ((C4_severity_thresholds (-20)).1).2 (by norm_num)

/-- Counterexample to C4 as stated: the claim says `-15.1` classifies as
`highly_negative`, but the code classifies it as `highly_positive`. -/
theorem C4_severity_thresholds_cex :
    severity (-151/10) ("lower_is_better") = ("highly_positive")
    ∧ ("highly_positive" : String) ≠ ("highly_negative") := by
  constructor
  · norm_num [severity]
  · decide

/-!  ## C9: citizen-satisfaction composite -/

/-- Casting an integer population sum to ℚ distributes over the list. -/
theorem pop_sum_cast (profiles : List CitizenProfile) :
    (((profiles.map (fun p => p.affected_population)).sum : ℤ) : ℚ)
      = (profiles.map (fun p => (p.affected_population : ℚ))).sum := by
  induction profiles with
  | nil => simp
  | cons p ps ih => simp [ih]

/-- C9: the composite equals the population-weighted mean whenever the
total affected population is positive; the empty profile list yields 0;
the two-group cancelling example yields exactly 0; and the severity bucket
of the composite is the lower-is-better classification of
`-satisfaction * 10`. -/
theorem C9_citizen_composite :
    (∀ profiles : List CitizenProfile,
      0 < (profiles.map (fun p => p.affected_population)).sum →
      overall_satisfaction profiles
        = (profiles.map (fun p => p.impact_score * (p.affected_population : ℚ))).sum
            / (profiles.map (fun p => (p.affected_population : ℚ))).sum)
    ∧ overall_satisfaction [] = 0
    ∧ overall_satisfaction
        [{ group := ("commuters"), impact_score := 10, affected_population := 100 },
         { group := ("residents"), impact_score := -10, affected_population := 100 }] = 0
    ∧ (∀ profiles : List CitizenProfile,
      (citizen_entry profiles).2
        = severity (-(overall_satisfaction profiles) * 10) ("lower_is_better")) := by
  refine ⟨fun profiles h => ?_, by simp [overall_satisfaction],
    by norm_num [overall_satisfaction], fun profiles => rfl⟩
  cases profiles with
  | nil => simp at h
  | cons p ps =>
    rw [overall_satisfaction, if_neg (by simp), if_pos h, pop_sum_cast]

/-- Witness for C9 at a single profile with score 4 and population 50. -/
theorem C9_citizen_composite_witness :
    0 < (([profile_students]).map (fun p => p.affected_population)).sum
    ∧ overall_satisfaction [profile_students]
      = (([profile_students]).map
          (fun p => p.impact_score * (p.affected_population : ℚ))).sum
        / (([profile_students]).map (fun p => (p.affected_population : ℚ))).sum :=
  ⟨by norm_num [profile_students], C9_citizen_composite.1 _ (by norm_num [profile_students])⟩

/-!  ## C7: signal timing applies network-wide -/

/-- C7: under `signal_timing`, every edge (primary or not) gets congestion
`max(0.1, old * 0.90)` and travel time `old / 1.10`. -/
theorem C7_signal_timing_network_wide (sample : List String → Nat → List String)
    (g : GraphData) (params : PolicyParams)
    (hpt : params.policy_type = some ("signal_timing")) :
    (apply_policy_to_graph sample g params).edges = g.edges.map (fun p =>
      (p.1, { p.2 with
              congestion := max 0.1 (p.2.congestion * 0.90),
              travel_time := p.2.travel_time / 1.10 })) := by
  simp only [apply_policy_to_graph, hpt, Option.getD_some,
    congestion_reduction_network, speed_improvement,
    eq_false (show ¬(("signal_timing" : String) = ("road_closure")) from by decide),
    eq_false (show ¬((("signal_timing" : String) = ("new_route"))
      ∨ (("signal_timing" : String) = ("transit_add"))) from by decide),
    if_false, eq_self_iff_true, if_true]

/-- Witness for C7 on the one-edge graph `gA`. -/
theorem C7_signal_timing_network_wide_witness :
    pSignal.policy_type = some ("signal_timing")
    ∧ (apply_policy_to_graph take_sample gA pSignal).edges
      = gA.edges.map (fun p =>
        (p.1, { p.2 with
                congestion := max 0.1 (p.2.congestion * 0.90),
                travel_time := p.2.travel_time / 1.10 })) :=
  ⟨rfl, C7_signal_timing_network_wide take_sample gA pSignal rfl⟩

/-!  ## C6: policy-type fallback behaviour -/

/-- C6 (amended): a missing `policy_type` is treated as `road_closure`
with the record's remaining fields unchanged (each read falls back to its
own per-field default); an unrecognized `policy_type` matches no effect
branch, so every edge keeps all of its attributes and only
`policy_applied` and `primary_affected_edges` are recorded.  Both paths
are total. -/
theorem C6_policy_type_fallback (sample : List String → Nat → List String)
    (g : GraphData) (params : PolicyParams) :
    (params.policy_type = none →
      apply_policy_to_graph sample g params
        = apply_policy_to_graph sample g { params with policy_type := some ("road_closure") })
    ∧ (∀ pt : String, params.policy_type = some pt →
      pt ∉ [("road_closure"), ("new_route"), ("transit_add"), ("signal_timing")] →
      (apply_policy_to_graph sample g params).edges = g.edges
      ∧ (apply_policy_to_graph sample g params).policy_applied = some pt
      ∧ (apply_policy_to_graph sample g params).primary_affected_edges
          = some (primary_of g params)) := by
  constructor
  · intro h
    obtain ⟨opt, kws, sc, pct⟩ := params
    simp only at h
    subst h
    rfl
  · intro pt hpt hne
    simp only [List.mem_cons, List.not_mem_nil, or_false, not_or] at hne
    obtain ⟨h1, h2, h3, h4⟩ := hne
    refine ⟨?_, ?_, ?_⟩
    · simp only [apply_policy_to_graph, hpt, Option.getD_some,
        eq_false h1, eq_false h2, eq_false h3, eq_false h4,
        if_false, or_self, false_or]
    · simp only [apply_policy_to_graph, hpt, Option.getD_some]
    · simp only [apply_policy_to_graph]

/-- Witness for C6: the unrecognized type `banana` applies no effect on
`gA`. -/
theorem C6_policy_type_fallback_witness :
    pBanana.policy_type = some ("banana")
    ∧ (("banana" : String)
        ∉ [("road_closure"), ("new_route"), ("transit_add"), ("signal_timing")])
    ∧ (apply_policy_to_graph take_sample gA pBanana).edges = gA.edges
    ∧ (apply_policy_to_graph take_sample gA pBanana).policy_applied = some ("banana")
    ∧ (apply_policy_to_graph take_sample gA pBanana).primary_affected_edges
        = some (primary_of gA pBanana) :=
  ⟨rfl, by decide,
    (C6_policy_type_fallback take_sample gA pBanana).2 ("banana") rfl (by decide)⟩

/-- Counterexample to C6 as stated: for the unrecognized type `banana`
the claim mandates full road-closure-with-defaults behaviour, which on
the one-edge graph `gA` would zero the edge's congestion ratio; the code
leaves it at 1/2. -/
theorem C6_policy_type_fallback_cex :
    ((apply_policy_to_graph take_sample gA pBanana).edges.map (fun p => p.2.congestion))
      = [1/2]
    ∧ ((apply_policy_to_graph take_sample gA pDefaultRC).edges.map
        (fun p => p.2.congestion)) = [0]
    ∧ ¬ ((1 : ℚ)/2 = 0) := by
  refine ⟨?_, ?_, by norm_num⟩
  · norm_num [apply_policy_to_graph, pBanana, gA, mkEdge, take_sample, primary_of,
      supplemented_of, matching_of, target_count_of, keywords_of, edge_matches,
      other_edges_of, spill_count_of, pythonInt, sort_desc, insert_desc,
      eq_false (show ¬(("banana" : String) = ("road_closure")) from by decide),
      eq_false (show ¬(("banana" : String) = ("new_route")) from by decide),
      eq_false (show ¬(("banana" : String) = ("transit_add")) from by decide),
      eq_false (show ¬(("banana" : String) = ("signal_timing")) from by decide)]
  · norm_num [apply_policy_to_graph, pDefaultRC, gA, mkEdge, take_sample, primary_of,
      supplemented_of, matching_of, target_count_of, keywords_of, edge_matches,
      other_edges_of, spill_count_of, pythonInt, sort_desc, insert_desc]

/-!  ## C5: corridor policies bound primary-edge congestion -/

/-- Pointwise lifting of a relation along `List.map`. -/
theorem forall₂_map_self {α β : Type} {P : α → β → Prop}
    (l : List α) (F : α → β) (h : ∀ p ∈ l, P p (F p)) :
    List.Forall₂ P l (l.map F) := by
  induction l with
  | nil => simp
  | cons a as ih =>
    exact List.Forall₂.cons (h a (by simp)) (ih (fun p hp => h p (List.mem_cons_of_mem a hp)))

/-- C5 (amended): under `new_route` or `transit_add`, every primary edge's
post-policy congestion is `max(0.1, pre * factor)` (factor 0.75 / 0.70)
and its baseline flow is `int(pre_flow * (1 - shift))` (shift 0.15 / 0.20);
hence the post-policy ratio is at least 0.1, at most `max(pre, 0.1)`, and
at most `pre` whenever `pre ≥ 0.1`.  (The unconditional `post ≤ pre` of
the original claim fails when the pre-policy ratio is below the 0.1
floor.) -/
theorem C5_corridor_congestion_bounds (sample : List String → Nat → List String)
    (g : GraphData) (params : PolicyParams) (pt : String)
    (hpt : params.policy_type = some pt)
    (hin : pt = ("new_route") ∨ pt = ("transit_add")) :
    List.Forall₂ (fun pre post =>
      pre.1 ∈ primary_of g params →
        (post.2.congestion = max 0.1 (pre.2.congestion
            * (if pt = ("new_route") then 0.75 else 0.70))
         ∧ post.2.baseline_flow = pythonInt ((pre.2.baseline_flow : ℚ)
            * (1 - (if pt = ("new_route") then 0.15 else 0.20)))
         ∧ (0.1 : ℚ) ≤ post.2.congestion
         ∧ post.2.congestion ≤ max pre.2.congestion 0.1
         ∧ ((0.1 : ℚ) ≤ pre.2.congestion → post.2.congestion ≤ pre.2.congestion)))
      g.edges (apply_policy_to_graph sample g params).edges := by
  have hbounds : ∀ c : ℚ, ∀ f : ℚ, 0 < f → f ≤ 1 →
      (0.1 : ℚ) ≤ max 0.1 (c * f)
      ∧ max 0.1 (c * f) ≤ max c 0.1
      ∧ ((0.1 : ℚ) ≤ c → max 0.1 (c * f) ≤ c) := by
    intro c f hf0 hf1
    refine ⟨le_max_left _ _, ?_, fun hc => ?_⟩
    · refine max_le (le_max_right c 0.1) ?_
      rcases le_total c 0 with hc | hc
      · nlinarith [le_max_right c (0.1 : ℚ)]
      · nlinarith [le_max_left c (0.1 : ℚ)]
    · exact max_le hc (by nlinarith)
  rcases hin with h | h <;> subst h
  · simp only [apply_policy_to_graph, hpt, Option.getD_some,
      eq_false (show ¬(("new_route" : String) = ("road_closure")) from by decide),
      if_false, eq_self_iff_true, if_true, true_or,
      congestion_reduction_corridor_new_route, modal_shift_factor_new_route]
    by_cases hsc : params.scope.getD ("local") = ("network-wide")
    · rw [if_pos hsc, List.map_map]
      refine forall₂_map_self _ _ (fun p hp hprim => ?_)
      simp only [Function.comp, if_pos hprim, not_not_intro hprim, if_neg, if_false,
        not_true_eq_false]
      exact ⟨by simp, by simp, hbounds p.2.congestion 0.75 (by norm_num) (by norm_num)⟩
    · rw [if_neg hsc]
      refine forall₂_map_self _ _ (fun p hp hprim => ?_)
      simp only [if_pos hprim, eq_self_iff_true, if_true]
      exact ⟨by trivial, by trivial, hbounds p.2.congestion 0.75 (by norm_num) (by norm_num)⟩
  · simp only [apply_policy_to_graph, hpt, Option.getD_some,
      eq_false (show ¬(("transit_add" : String) = ("road_closure")) from by decide),
      eq_false (show ¬(("transit_add" : String) = ("new_route")) from by decide),
      if_false, eq_self_iff_true, if_true, or_true, false_or]
    by_cases hsc : params.scope.getD ("local") = ("network-wide")
    · rw [if_pos hsc, List.map_map]
      refine forall₂_map_self _ _ (fun p hp hprim => ?_)
      simp only [Function.comp, if_pos hprim, not_not_intro hprim, if_neg, if_false,
        not_true_eq_false]
      exact ⟨by trivial, by trivial, hbounds p.2.congestion 0.70 (by norm_num) (by norm_num)⟩
    · rw [if_neg hsc]
      refine forall₂_map_self _ _ (fun p hp hprim => ?_)
      simp only [if_pos hprim, eq_self_iff_true, if_true]
      exact ⟨by trivial, by trivial, hbounds p.2.congestion 0.70 (by norm_num) (by norm_num)⟩

/-- Witness for C5 on `gA` (congestion 1/2) under `new_route`. -/
theorem C5_corridor_congestion_bounds_witness :
    pNewRoute.policy_type = some ("new_route")
    ∧ ((("new_route" : String)) = ("new_route") ∨ (("new_route" : String)) = ("transit_add"))
    ∧ List.Forall₂ (fun pre post =>
        pre.1 ∈ primary_of gA pNewRoute →
          (post.2.congestion = max 0.1 (pre.2.congestion
              * (if ("new_route" : String) = ("new_route") then 0.75 else 0.70))
           ∧ post.2.baseline_flow = pythonInt ((pre.2.baseline_flow : ℚ)
              * (1 - (if ("new_route" : String) = ("new_route") then 0.15 else 0.20)))
           ∧ (0.1 : ℚ) ≤ post.2.congestion
           ∧ post.2.congestion ≤ max pre.2.congestion 0.1
           ∧ ((0.1 : ℚ) ≤ pre.2.congestion → post.2.congestion ≤ pre.2.congestion)))
        gA.edges (apply_policy_to_graph take_sample gA pNewRoute).edges :=
  ⟨rfl, Or.inl rfl,
    C5_corridor_congestion_bounds take_sample gA pNewRoute ("new_route") rfl (Or.inl rfl)⟩

/-- Counterexample to C5 as stated: on `gC5` the unique (primary) edge has
pre-policy congestion 1/20 < 0.1, and `new_route` raises it to the floor
0.1, so the post-policy ratio exceeds the pre-policy ratio. -/
theorem C5_corridor_congestion_bounds_cex :
    ((apply_policy_to_graph take_sample gC5 pNewRoute).edges.map
        (fun p => p.2.congestion)) = [1/10]
    ∧ (apply_policy_to_graph take_sample gC5 pNewRoute).primary_affected_edges
        = some [("a")]
    ∧ (gC5.edges.map (fun p => p.2.congestion)) = [1/20]
    ∧ ¬ ((1 : ℚ)/10 ≤ 1/20) := by
  refine ⟨?_, ?_, by norm_num [gC5, mkEdge], by norm_num⟩
  · norm_num [apply_policy_to_graph, pNewRoute, gC5, mkEdge, take_sample, primary_of,
      supplemented_of, matching_of, target_count_of, keywords_of, edge_matches,
      other_edges_of, spill_count_of, pythonInt, sort_desc, insert_desc,
      max_def, min_def,
      congestion_reduction_corridor_new_route, modal_shift_factor_new_route,
      eq_false (show ¬(("new_route" : String) = ("road_closure")) from by decide)]
  · norm_num [apply_policy_to_graph, pNewRoute, gC5, mkEdge, take_sample, primary_of,
      supplemented_of, matching_of, target_count_of, keywords_of, edge_matches,
      pythonInt, sort_desc, insert_desc]

/-!  ## C2: road-closure effects -/

/-- Edge ids outside the primary set (members of `other_edges`) are not
primary. -/
theorem mem_other_edges_not_primary (g : GraphData) (params : PolicyParams) :
    ∀ x ∈ other_edges_of g params, x ∉ primary_of g params := by
  intro x hx
  simp only [other_edges_of, List.mem_map, List.mem_filter] at hx
  obtain ⟨p, ⟨hp, hd⟩, rfl⟩ := hx
  exact of_decide_eq_true hd

/-- C2: under `road_closure`, every primary edge gets congestion 0, flow 0
and `closed = true`; the spillover sample is a duplicate-free selection of
exactly `min(3 * target_count, #non-primary)` non-primary edges whose
congestion becomes `min(1, old * 1.35)`; all other non-primary edges are
untouched. -/
theorem C2_road_closure_effects (sample : List String → Nat → List String)
    (g : GraphData) (params : PolicyParams)
    (hpt : params.policy_type = some ("road_closure"))
    (hlen : (sample (other_edges_of g params) (spill_count_of g params)).length
      = spill_count_of g params)
    (hnodup : (sample (other_edges_of g params) (spill_count_of g params)).Nodup)
    (hsub : ∀ x ∈ sample (other_edges_of g params) (spill_count_of g params),
      x ∈ other_edges_of g params) :
    (sample (other_edges_of g params) (spill_count_of g params)).Nodup
    ∧ (sample (other_edges_of g params) (spill_count_of g params)).length
        = min (3 * target_count_of g params) (other_edges_of g params).length
    ∧ (apply_policy_to_graph sample g params).edges = g.edges.map (fun p =>
        if p.1 ∈ primary_of g params then
          (p.1, { p.2 with congestion := 0, baseline_flow := 0, closed := true })
        else if p.1 ∈ sample (other_edges_of g params) (spill_count_of g params) then
          (p.1, { p.2 with congestion := min 1 (p.2.congestion * 1.35) })
        else p) := by
  refine ⟨hnodup, ?_, ?_⟩
  · rw [hlen, spill_count_of]
    omega
  · simp only [apply_policy_to_graph, hpt, Option.getD_some, eq_self_iff_true, if_true,
      congestion_multiplier_surrounding]
    rw [List.map_map]
    refine List.map_congr_left (fun p hp => ?_)
    by_cases hprim : p.1 ∈ primary_of g params
    · have hnot : p.1 ∉ sample (other_edges_of g params) (spill_count_of g params) :=
        fun hmem => mem_other_edges_not_primary g params p.1 (hsub _ hmem) hprim
      simp only [Function.comp, if_pos hprim, if_neg hnot]
    · by_cases hspill : p.1 ∈ sample (other_edges_of g params) (spill_count_of g params)
      · simp only [Function.comp, if_neg hprim, if_pos hspill]
      · simp only [Function.comp, if_neg hprim, if_neg hspill]

/-- Witness for C2 on the three-edge graph `gB`: the policy closes edge
`b` and spills onto the two remaining edges. -/
theorem C2_road_closure_effects_witness :
    pB.policy_type = some ("road_closure")
    ∧ (take_sample (other_edges_of gB pB) (spill_count_of gB pB)).Nodup
    ∧ (take_sample (other_edges_of gB pB) (spill_count_of gB pB)).length
        = min (3 * target_count_of gB pB) (other_edges_of gB pB).length
    ∧ (apply_policy_to_graph take_sample gB pB).edges = gB.edges.map (fun p =>
        if p.1 ∈ primary_of gB pB then
          (p.1, { p.2 with congestion := 0, baseline_flow := 0, closed := true })
        else if p.1 ∈ take_sample (other_edges_of gB pB) (spill_count_of gB pB) then
          (p.1, { p.2 with congestion := min 1 (p.2.congestion * 1.35) })
        else p) := by
  have hoth : other_edges_of gB pB = [("a"), ("c")] := by
    norm_num [other_edges_of, primary_of, supplemented_of, matching_of, target_count_of,
      keywords_of, edge_matches, pythonInt, sort_desc, insert_desc, gB, pB, mkEdge]
    all_goals decide
  have hsc : spill_count_of gB pB = 2 := by
    norm_num [spill_count_of, hoth, other_edges_of, primary_of, supplemented_of,
      matching_of, target_count_of, keywords_of, edge_matches, pythonInt, sort_desc,
      insert_desc, gB, pB, mkEdge]
    all_goals decide
  have hts : take_sample (other_edges_of gB pB) (spill_count_of gB pB) = [("a"), ("c")] := by
    rw [hoth, hsc]; rfl
  have hlen : (take_sample (other_edges_of gB pB) (spill_count_of gB pB)).length
      = spill_count_of gB pB := by rw [hts, hsc]; rfl
  have hnodup : (take_sample (other_edges_of gB pB) (spill_count_of gB pB)).Nodup := by
    rw [hts]; decide
  have hsub : ∀ x ∈ take_sample (other_edges_of gB pB) (spill_count_of gB pB),
      x ∈ other_edges_of gB pB := by rw [hts, hoth]; decide
  have h := C2_road_closure_effects take_sample gB pB rfl hlen hnodup hsub
  exact ⟨rfl, h.1, h.2.1, h.2.2⟩

/-!  ## C10: the applier only rewrites traffic attributes -/

/-- `edge_shape_eq` is reflexive. -/
theorem edge_shape_eq_refl (p : String × Edge) : edge_shape_eq p p := by
  simp [edge_shape_eq]

/-- `edge_shape_eq` composes. -/
theorem edge_shape_eq_trans {a b c : String × Edge}
    (h : edge_shape_eq a b) (h' : edge_shape_eq b c) : edge_shape_eq a c :=
  ⟨h'.1.trans h.1, h'.2.1.trans h.2.1, h'.2.2.1.trans h.2.2.1,
   h'.2.2.2.1.trans h.2.2.2.1, h'.2.2.2.2.1.trans h.2.2.2.2.1,
   h'.2.2.2.2.2.1.trans h.2.2.2.2.2.1, h'.2.2.2.2.2.2.1.trans h.2.2.2.2.2.2.1,
   h'.2.2.2.2.2.2.2.1.trans h.2.2.2.2.2.2.2.1, h'.2.2.2.2.2.2.2.2.trans h.2.2.2.2.2.2.2.2⟩

/-- Every per-edge rewrite in the applier preserves id and structure. -/
theorem apply_policy_edges_shape (sample : List String → Nat → List String)
    (g : GraphData) (params : PolicyParams) :
    ∃ F : (String × Edge) → (String × Edge),
      (apply_policy_to_graph sample g params).edges = g.edges.map F
      ∧ ∀ p, edge_shape_eq p (F p) := by
  simp only [apply_policy_to_graph]
  by_cases h1 : params.policy_type.getD ("road_closure") = ("road_closure")
  · rw [if_pos h1, List.map_map]
    refine ⟨_, rfl, fun p => ?_⟩
    refine edge_shape_eq_trans (b := if p.1 ∈ primary_of g params then
      (p.1, { p.2 with congestion := 0, baseline_flow := 0, closed := true }) else p) ?_ ?_
    · by_cases hc : p.1 ∈ primary_of g params <;> simp [edge_shape_eq, hc]
    · by_cases hc : (if p.1 ∈ primary_of g params then
          (p.1, { p.2 with congestion := 0, baseline_flow := 0, closed := true })
          else p).1 ∈ sample (other_edges_of g params) (spill_count_of g params) <;>
        simp only [Function.comp, if_pos, if_neg, hc, if_true, if_false] <;>
        simp [edge_shape_eq]
  · rw [if_neg h1]
    by_cases h2 : params.policy_type.getD ("road_closure") = ("new_route")
      ∨ params.policy_type.getD ("road_closure") = ("transit_add")
    · rw [if_pos h2]
      by_cases h3 : params.scope.getD ("local") = ("network-wide")
      · rw [if_pos h3, List.map_map]
        refine ⟨_, rfl, fun p => ?_⟩
        refine edge_shape_eq_trans
          (b := if p.1 ∈ primary_of g params then
            (p.1, { p.2 with
                    congestion := max 0.1 (p.2.congestion *
                      (if params.policy_type.getD ("road_closure") = ("new_route") then
                        congestion_reduction_corridor_new_route
                      else congestion_reduction_corridor_transit_add)),
                    baseline_flow := pythonInt ((p.2.baseline_flow : ℚ)
                      * (1 - (if params.policy_type.getD ("road_closure") = ("new_route") then
                          modal_shift_factor_new_route
                        else modal_shift_factor_transit_add))) })
            else p) ?_ ?_
        · by_cases hc : p.1 ∈ primary_of g params <;> simp [edge_shape_eq, hc]
        · by_cases hc : (if p.1 ∈ primary_of g params then
              (p.1, { p.2 with
                      congestion := max 0.1 (p.2.congestion *
                        (if params.policy_type.getD ("road_closure") = ("new_route") then
                          congestion_reduction_corridor_new_route
                        else congestion_reduction_corridor_transit_add)),
                      baseline_flow := pythonInt ((p.2.baseline_flow : ℚ)
                        * (1 - (if params.policy_type.getD ("road_closure") = ("new_route") then
                            modal_shift_factor_new_route
                          else modal_shift_factor_transit_add))) })
              else p).1 ∈ primary_of g params <;>
            simp only [Function.comp, if_pos, if_neg, hc, if_true, if_false, not_true_eq_false,
              not_false_eq_true] <;>
          simp [edge_shape_eq]
      · rw [if_neg h3]
        refine ⟨_, rfl, fun p => ?_⟩
        by_cases hc : p.1 ∈ primary_of g params <;> simp [edge_shape_eq, hc]
    · rw [if_neg h2]
      by_cases h4 : params.policy_type.getD ("road_closure") = ("signal_timing")
      · rw [if_pos h4]
        refine ⟨_, rfl, fun p => ?_⟩
        simp [edge_shape_eq]
      · rw [if_neg h4]
        exact ⟨id, by simp, fun p => edge_shape_eq_refl p⟩

/-- C10: the applier preserves node count, edge count, node data, the edge
id sequence, and every non-traffic edge attribute; only traffic attributes,
the `closed` flag and the two recorded policy fields can differ. -/
theorem C10_applier_frame (sample : List String → Nat → List String)
    (g : GraphData) (params : PolicyParams) :
    (apply_policy_to_graph sample g params).node_count = g.node_count
    ∧ (apply_policy_to_graph sample g params).edge_count = g.edge_count
    ∧ (apply_policy_to_graph sample g params).nodes = g.nodes
    ∧ ((apply_policy_to_graph sample g params).edges).map Prod.fst = g.edges.map Prod.fst
    ∧ List.Forall₂ edge_shape_eq g.edges (apply_policy_to_graph sample g params).edges := by
  obtain ⟨F, hF, hshape⟩ := apply_policy_edges_shape sample g params
  refine ⟨rfl, rfl, rfl, ?_, ?_⟩
  · rw [hF, List.map_map]
    exact List.map_congr_left (fun p hp => (hshape p).1)
  · rw [hF]
    exact forall₂_map_self _ _ (fun p hp => hshape p)

/-!  ## C1: primary-edge selection -/

/-- Lowering the keywords before matching (as the code does) agrees with
lowering each keyword at the comparison (as the claim words it). -/
theorem edge_matches_eq (kws : List String) (e : Edge) :
    edge_matches (kws.map String.toLower) e
      = kws.any (fun kw => py_in kw.toLower.data e.name.toLower.data
          || py_in kw.toLower.data e.highway.toLower.data) := by
  cases kws with
  | nil => rfl
  | cons k ks => simp [edge_matches, List.any_map, Function.comp_def]

/-- The code's keyword-matching pass equals the claim's description. -/
theorem matching_eq_spec (g : GraphData) (params : PolicyParams) :
    matching_of g params = spec_match_list g.edges params.affected_road_keywords := by
  simp only [matching_of, keywords_of, spec_match_list]
  exact congrArg (List.map Prod.fst)
    (List.filter_congr (fun p hp => edge_matches_eq params.affected_road_keywords p.2))

/-- The code's primary selection equals the claim's two-pass construction. -/
theorem primary_eq_spec (g : GraphData) (params : PolicyParams) :
    primary_of g params
      = spec_primary g.edges params.affected_road_keywords (target_count_of g params) := by
  have hm := matching_eq_spec g params
  simp only [primary_of, supplemented_of, spec_primary, hm]
  by_cases hlt : (spec_match_list g.edges params.affected_road_keywords).length
      < target_count_of g params
  · rw [if_pos hlt, if_pos hlt]
  · rw [if_neg hlt, if_neg hlt, List.append_nil]

/-- C1 (amended): the recorded primary set is the first `target_count`
elements of (keyword matches ++ congestion-ranked supplement), with
`target_count = max(1, int(edge_count * pct / 100))` — Python `int`
truncation, not `round` as the claim stated. -/
theorem C1_primary_selection (sample : List String → Nat → List String)
    (g : GraphData) (params : PolicyParams) (h : g.edges ≠ []) :
    (apply_policy_to_graph sample g params).primary_affected_edges
      = some (spec_primary g.edges params.affected_road_keywords (target_count_of g params))
    ∧ target_count_of g params
      = (max 1 (pythonInt ((g.edges.length : ℚ)
          * (params.estimated_affected_edges_pct.getD 5) / 100))).toNat := by
  constructor
  · have hproj : (apply_policy_to_graph sample g params).primary_affected_edges
        = some (primary_of g params) := rfl
    rw [hproj, primary_eq_spec]
  · rw [target_count_of, mul_div_assoc]

/-- Witness for C1 on the ten-edge graph `g10` with a 15% intent. -/
theorem C1_primary_selection_witness :
    g10.edges ≠ []
    ∧ (apply_policy_to_graph take_sample g10 p15).primary_affected_edges
        = some (spec_primary g10.edges p15.affected_road_keywords (target_count_of g10 p15))
    ∧ target_count_of g10 p15
        = (max 1 (pythonInt ((g10.edges.length : ℚ)
            * (p15.estimated_affected_edges_pct.getD 5) / 100))).toNat := by
  have h : g10.edges ≠ [] := by norm_num [g10, mkEdge]
  have hc := C1_primary_selection take_sample g10 p15 h
  exact ⟨h, hc.1, hc.2⟩

/-- Counterexample to C1 as stated: on `g10` with
`estimated_affected_edges_pct = 15`, `round(10 * 15/100) = round(1.5) = 2`
but the code's `int(1.5) = 1`, so the code records 1 primary edge where
the claim demands the first 2 elements of a list with 2 elements. -/
theorem C1_primary_selection_cex :
    ((apply_policy_to_graph take_sample g10 p15).primary_affected_edges.getD []).length = 1
    ∧ (max 1 (pythonRound ((g10.edges.length : ℚ)
        * (p15.estimated_affected_edges_pct.getD 5) / 100))).toNat = 2
    ∧ (spec_primary g10.edges p15.affected_road_keywords 2).length = 2 := by
  refine ⟨?_, ?_, ?_⟩
  · norm_num [apply_policy_to_graph, primary_of, supplemented_of, matching_of,
      target_count_of, keywords_of, edge_matches, pythonInt, sort_desc, insert_desc,
      g10, p15, mkEdge, take_sample]
  · norm_num [pythonRound, g10, p15, mkEdge]
    decide
  · norm_num [spec_primary, spec_match_list, sort_desc, insert_desc, g10, p15, mkEdge]

/-!  ## C3: metrics-aggregation formulas -/

/-- Casting an integer flow sum to ℚ distributes over the list. -/
theorem flow_sum_cast (l : List (String × Edge)) :
    (((l.map (fun p => p.2.baseline_flow)).sum : ℤ) : ℚ)
      = (l.map (fun p => (p.2.baseline_flow : ℚ))).sum := by
  induction l with
  | nil => simp
  | cons p ps ih => simp [ih]

/-- C3 (amended): the metrics summary computes the documented formulas,
with average congestion rounded to 3 decimals, severe share to 1 decimal,
average travel time (minutes) to 2 decimals, daily CO₂ (kg) to 1 decimal,
and economic loss rounded to 0 decimals (whole currency units) — not the
1 decimal the claim stated for currency. -/
theorem C3_metrics_formulas (g : GraphData) (h : g.edges ≠ []) :
    compute_baseline_metrics g = some {
      avg_congestion := roundTo (qmean (g.edges.map (fun p => p.2.congestion))) 3,
      severe_congestion_pct := roundTo
        ((((g.edges.map (fun p => p.2.congestion)).filter
            (fun r => decide ((0.8 : ℚ) < r))).length : ℚ)
          / (g.edges.length : ℚ) * 100) 1,
      avg_travel_time_min := roundTo (qmean (g.edges.map (fun p => p.2.travel_time)) / 60) 2,
      total_vehicle_flow := (g.edges.map (fun p => p.2.baseline_flow)).sum,
      daily_co2_kg := roundTo (((g.edges.map (fun p => p.2.baseline_flow)).sum : ℚ)
        * qmean (g.edges.map (fun p => p.2.length)) / 1000 * 0.21 * 8) 1,
      economic_loss_inr_per_day := roundTo
        (((g.edges.map (fun p => p.2.baseline_flow)).sum : ℚ)
          * ((qmean (g.edges.map (fun p => p.2.travel_time)) / 60)
              * max 0 (qmean (g.edges.map (fun p => p.2.congestion)) - 0.4) / 60)
          * 50 * 8) 0,
      total_edges := g.edges.length,
      total_nodes := g.node_count } := by
  simp only [compute_baseline_metrics]
  rw [if_neg (by simpa [List.length_eq_zero] using h)]
  refine congrArg some ?_
  congr 1 <;>
    first
      | rfl
      | (rw [show (((g.edges.map (fun p => p.2.baseline_flow)).sum : ℤ) : ℚ)
              = (g.edges.map (fun p => (p.2.baseline_flow : ℚ))).sum
            from flow_sum_cast g.edges] <;>
          exact congrArg (fun q => roundTo q 1) (by ring))

/-- Witness for C3 on the one-edge graph `gA`. -/
theorem C3_metrics_formulas_witness :
    gA.edges ≠ []
    ∧ compute_baseline_metrics gA = some {
      avg_congestion := roundTo (qmean (gA.edges.map (fun p => p.2.congestion))) 3,
      severe_congestion_pct := roundTo
        ((((gA.edges.map (fun p => p.2.congestion)).filter
            (fun r => decide ((0.8 : ℚ) < r))).length : ℚ)
          / (gA.edges.length : ℚ) * 100) 1,
      avg_travel_time_min := roundTo (qmean (gA.edges.map (fun p => p.2.travel_time)) / 60) 2,
      total_vehicle_flow := (gA.edges.map (fun p => p.2.baseline_flow)).sum,
      daily_co2_kg := roundTo (((gA.edges.map (fun p => p.2.baseline_flow)).sum : ℚ)
        * qmean (gA.edges.map (fun p => p.2.length)) / 1000 * 0.21 * 8) 1,
      economic_loss_inr_per_day := roundTo
        (((gA.edges.map (fun p => p.2.baseline_flow)).sum : ℚ)
          * ((qmean (gA.edges.map (fun p => p.2.travel_time)) / 60)
              * max 0 (qmean (gA.edges.map (fun p => p.2.congestion)) - 0.4) / 60)
          * 50 * 8) 0,
      total_edges := gA.edges.length,
      total_nodes := gA.node_count } := by
  have h : gA.edges ≠ [] := by norm_num [gA, mkEdge]
  exact ⟨h, C3_metrics_formulas gA h⟩

/-- Counterexample to C3 as stated: on `gA` the code reports economic loss
67 (rounded to 0 decimals), while rounding the same quantity to the 1
decimal the claim documents for currency gives 66.7. -/
theorem C3_metrics_formulas_cex :
    (compute_baseline_metrics gA).map (fun m => m.economic_loss_inr_per_day) = some 67
    ∧ roundTo (((100 : ℚ)) * ((60/60) * max 0 ((1/2 : ℚ) - 2/5) / 60) * 50 * 8) 1 = 667/10
    ∧ ¬ ((67 : ℚ) = 667/10) := by
  refine ⟨?_, ?_, by norm_num⟩
  · norm_num [compute_baseline_metrics, qmean, roundTo, pythonRound, gA, mkEdge]
  · norm_num [roundTo, pythonRound, max_def]
